import Mathlib

/-!
Shallow embedding of the ithriveai-job-analyzer occupation-resolution and
risk-scoring pipeline (src/bls_connector.py, src/bls_job_mapper.py,
src/job_api_integration_database_only.py), together with theorems settling
the frozen claims about it.

Conventions of the embedding:
* Python strings are modelled as lists of Unicode code points (`PyStr`);
  `pyStr` converts a Lean string literal to this representation.
* Python `str.lower` / `str.strip` are modelled on the ASCII range, which is
  the only range the program's data exercises.
* Machine floats in the risk tables are modelled as exact rationals.
* Dates are modelled as absolute day numbers; `datetime.now()` becomes an
  explicit `today : Nat` parameter.
* The module-level mutable API cache of `bls_connector` becomes an explicit
  `ApiState` threaded through `get_bls_data`; the network (`requests.post`)
  becomes an `upstream` function in a `FetchEnv`, and each attempted request
  increments a call counter.
* A Python statement that can raise an uncaught exception (the
  `series_ids[0]` subscript on the sample path) is modelled with
  `Except PyFault`.
-/

/-- A Python string, as its list of Unicode code points. -/
abbrev PyStr : Type := List Nat

/-- Convert a Lean string literal into the `PyStr` representation. -/
def pyStr (s : String) : PyStr := s.data.map Char.toNat

/-- Python `str.lower` on one code point (ASCII range, the range the
program's job-title data uses). -/
def pyLowerChar (c : Nat) : Nat := if 65 ≤ c ∧ c ≤ 90 then c + 32 else c

/-- Python `str.lower`. -/
def pyLower (s : PyStr) : PyStr := s.map pyLowerChar

/-- Python whitespace recognized by `str.strip` (ASCII range). -/
def isPySpace (c : Nat) : Bool := c = 32 ∨ c = 9 ∨ c = 10 ∨ c = 13 ∨ c = 11 ∨ c = 12

/-- Python `str.strip`: drop leading and trailing whitespace. -/
def pyStrip (s : PyStr) : PyStr :=
  ((s.dropWhile isPySpace).reverse.dropWhile isPySpace).reverse

/-- `suffixes` list of `standardize_job_title`, in source order. -/
def SUFFIXES : List PyStr :=
  [pyStr " i", pyStr " ii", pyStr " iii", pyStr " iv", pyStr " v",
   pyStr " specialist", pyStr " assistant", pyStr " associate",
   pyStr " senior", pyStr " junior", pyStr " lead"]

/-- The `for suffix in suffixes: if standardized.endswith(suffix):
standardized = standardized[:-len(suffix)]; break` loop: strip the first
matching suffix of the list, then stop. -/
def stripOneSuffix : List PyStr → PyStr → PyStr
  | [], s => s
  | suf :: rest, s =>
      if List.isSuffixOf suf s then s.take (s.length - suf.length)
      else stripOneSuffix rest s

/-- `bls_job_mapper.standardize_job_title`: lower-case, strip whitespace,
remove at most one of the listed suffixes. -/
def standardize_job_title (title : PyStr) : PyStr :=
  stripOneSuffix SUFFIXES (pyStrip (pyLower title))

/-- `JOB_TITLE_TO_SOC` of `bls_job_mapper`, as an association list in its
source (insertion) order; Python dict iteration preserves this order. -/
def JOB_TITLE_TO_SOC : List (PyStr × PyStr) :=
  [(pyStr "software developer", pyStr "15-1252"),
   (pyStr "software engineer", pyStr "15-1252"),
   (pyStr "programmer", pyStr "15-1251"),
   (pyStr "web developer", pyStr "15-1254"),
   (pyStr "registered nurse", pyStr "29-1141"),
   (pyStr "nurse", pyStr "29-1141"),
   (pyStr "teacher", pyStr "25-2021"),
   (pyStr "elementary school teacher", pyStr "25-2021"),
   (pyStr "high school teacher", pyStr "25-2031"),
   (pyStr "lawyer", pyStr "23-1011"),
   (pyStr "attorney", pyStr "23-1011"),
   (pyStr "doctor", pyStr "29-1221"),
   (pyStr "physician", pyStr "29-1221"),
   (pyStr "accountant", pyStr "13-2011"),
   (pyStr "project manager", pyStr "11-3021"),
   (pyStr "product manager", pyStr "11-2021"),
   (pyStr "marketing manager", pyStr "11-2021"),
   (pyStr "retail salesperson", pyStr "41-2031"),
   (pyStr "cashier", pyStr "41-2011"),
   (pyStr "customer service representative", pyStr "43-4051"),
   (pyStr "truck driver", pyStr "53-3032"),
   (pyStr "receptionist", pyStr "43-4171"),
   (pyStr "data scientist", pyStr "15-2051"),
   (pyStr "data analyst", pyStr "15-2041"),
   (pyStr "business analyst", pyStr "13-1111"),
   (pyStr "financial analyst", pyStr "13-2051"),
   (pyStr "human resources specialist", pyStr "13-1071"),
   (pyStr "graphic designer", pyStr "27-1024"),
   (pyStr "police officer", pyStr "33-3051"),
   (pyStr "chef", pyStr "35-1011"),
   (pyStr "cook", pyStr "35-2014"),
   (pyStr "waiter", pyStr "35-3031"),
   (pyStr "waitress", pyStr "35-3031"),
   (pyStr "janitor", pyStr "37-2011"),
   (pyStr "administrative assistant", pyStr "43-6011"),
   (pyStr "executive assistant", pyStr "43-6011"),
   (pyStr "dental hygienist", pyStr "29-1292"),
   (pyStr "electrician", pyStr "47-2111"),
   (pyStr "plumber", pyStr "47-2152"),
   (pyStr "carpenter", pyStr "47-2031"),
   (pyStr "construction worker", pyStr "47-2061"),
   (pyStr "mechanic", pyStr "49-3023"),
   (pyStr "automotive mechanic", pyStr "49-3023"),
   (pyStr "taxi driver", pyStr "53-3054"),
   (pyStr "uber driver", pyStr "53-3054"),
   (pyStr "journalist", pyStr "27-3023"),
   (pyStr "reporter", pyStr "27-3023"),
   (pyStr "writer", pyStr "27-3042"),
   (pyStr "editor", pyStr "27-3041"),
   (pyStr "photographer", pyStr "27-4021"),
   (pyStr "court reporter", pyStr "23-2011"),
   (pyStr "stenographer", pyStr "23-2011"),
   (pyStr "digital court reporter", pyStr "23-2011"),
   (pyStr "travel agent", pyStr "41-4012")]

/-- `SOC_TO_CATEGORY` of `bls_job_mapper`: SOC code prefix to job category,
in source order. -/
def SOC_TO_CATEGORY : List (PyStr × PyStr) :=
  [(pyStr "15-", pyStr "Computer and Mathematical"),
   (pyStr "11-", pyStr "Management"),
   (pyStr "13-", pyStr "Business and Financial"),
   (pyStr "17-", pyStr "Architecture and Engineering"),
   (pyStr "19-", pyStr "Life, Physical, and Social Science"),
   (pyStr "21-", pyStr "Community and Social Service"),
   (pyStr "23-", pyStr "Legal"),
   (pyStr "25-", pyStr "Educational Instruction"),
   (pyStr "27-", pyStr "Arts, Design, Entertainment, Sports, and Media"),
   (pyStr "29-", pyStr "Healthcare Practitioners"),
   (pyStr "31-", pyStr "Healthcare Support"),
   (pyStr "33-", pyStr "Protective Service"),
   (pyStr "35-", pyStr "Food Preparation and Serving"),
   (pyStr "37-", pyStr "Building and Grounds Cleaning and Maintenance"),
   (pyStr "39-", pyStr "Personal Care and Service"),
   (pyStr "41-", pyStr "Sales and Related"),
   (pyStr "43-", pyStr "Office and Administrative Support"),
   (pyStr "45-", pyStr "Farming, Fishing, and Forestry"),
   (pyStr "47-", pyStr "Construction and Extraction"),
   (pyStr "49-", pyStr "Installation, Maintenance, and Repair"),
   (pyStr "51-", pyStr "Production"),
   (pyStr "53-", pyStr "Transportation and Material Moving")]

/-- The `for prefix, category in SOC_TO_CATEGORY.items(): if
occupation_code.startswith(prefix): return category` loop of
`get_job_category`, with its `return "General"` fallthrough. -/
def categoryScan : List (PyStr × PyStr) → PyStr → PyStr
  | [], _ => pyStr "General"
  | (p, cat) :: rest, code =>
      if List.isPrefixOf p code then cat else categoryScan rest code

/-- `bls_job_mapper.get_job_category`. -/
def get_job_category (occupation_code : PyStr) : PyStr :=
  categoryScan SOC_TO_CATEGORY occupation_code

/-- The sample SOC code/title list inside `bls_connector.search_occupations`. -/
def soc_codes : List (PyStr × PyStr) :=
  [(pyStr "11-1011", pyStr "Chief Executives"),
   (pyStr "11-2011", pyStr "Advertising and Promotions Managers"),
   (pyStr "11-3031", pyStr "Financial Managers"),
   (pyStr "15-1252", pyStr "Software Developers"),
   (pyStr "15-1211", pyStr "Computer Systems Analysts"),
   (pyStr "15-1231", pyStr "Computer Network Support Specialists"),
   (pyStr "25-1011", pyStr "Business Teachers, Postsecondary"),
   (pyStr "25-2021", pyStr "Elementary School Teachers"),
   (pyStr "29-1051", pyStr "Pharmacists"),
   (pyStr "29-1141", pyStr "Registered Nurses"),
   (pyStr "41-3091", pyStr "Sales Representatives of Services"),
   (pyStr "43-4051", pyStr "Customer Service Representatives"),
   (pyStr "43-9021", pyStr "Data Entry Keyers"),
   (pyStr "53-3032", pyStr "Heavy and Tractor-Trailer Truck Drivers")]

/-- `bls_connector.search_occupations`: entries whose lower-cased title
contains the lower-cased query as a substring. -/
def search_occupations (query : PyStr) : List (PyStr × PyStr) :=
  soc_codes.filter (fun item => (pyLower query) <:+: (pyLower item.2))

/-- The `for key, code in JOB_TITLE_TO_SOC.items(): if key in std_title or
std_title in key` partial-match scan of `find_occupation_code`; first match
in table order wins. -/
def partialScan : List (PyStr × PyStr) → PyStr → Option PyStr
  | [], _ => none
  | (key, code) :: rest, std_title =>
      if key <:+: std_title ∨ std_title <:+: key then some code
      else partialScan rest std_title

/-- `bls_job_mapper.find_occupation_code`, evaluated against the initial
(static) `JOB_TITLE_TO_SOC` table. The source also inserts a fallback
discovery back into the table; the returned triple, which is all the claims
concern, does not depend on that mutation. Returns
`(SOC code, title, job category)`. -/
def find_occupation_code (job_title : PyStr) : PyStr × PyStr × PyStr :=
  let std_title := standardize_job_title job_title
  match (JOB_TITLE_TO_SOC.lookup std_title : Option PyStr) with
  | some soc_code => (soc_code, job_title, get_job_category soc_code)
  | none =>
    match partialScan JOB_TITLE_TO_SOC std_title with
    | some code => (code, job_title, get_job_category code)
    | none =>
      match search_occupations job_title with
      | best_match :: _ =>
          (best_match.1, best_match.2, get_job_category best_match.1)
      | [] => (pyStr "00-0000", job_title, pyStr "General")

/-- The `generic_risk_factors` list of `generate_risk_factors`. -/
def generic_risk_factors : List PyStr :=
  [pyStr "Routine data processing tasks can be automated",
   pyStr "Predictable decision-making components can be handled by AI",
   pyStr "Standardized documentation and reporting can be automated",
   pyStr "Basic customer interactions can be managed by AI systems"]

/-- The `category_risk_factors` table of `generate_risk_factors`. -/
def category_risk_factors : List (PyStr × List PyStr) :=
  [(pyStr "Computer and Mathematical",
    [pyStr "Code generation AI can produce routine programming solutions",
     pyStr "Automated testing and debugging reduces manual work",
     pyStr "Basic website and application development increasingly automated",
     pyStr "Technical documentation can be generated by AI"]),
   (pyStr "Management",
    [pyStr "AI tools can handle resource allocation and scheduling",
     pyStr "Performance monitoring and reporting can be automated",
     pyStr "Basic project tracking requires less human oversight",
     pyStr "Standard communication can be drafted by AI"]),
   (pyStr "Business and Financial",
    [pyStr "Financial analysis and modeling increasingly automated",
     pyStr "Transaction processing and auditing can be handled by AI",
     pyStr "Market research data collection and basic analysis automated",
     pyStr "Standard financial reporting can be generated by AI"]),
   (pyStr "Legal",
    [pyStr "Document review and contract analysis increasingly automated",
     pyStr "Legal research can be accelerated with AI assistance",
     pyStr "Standard legal document generation handled by AI",
     pyStr "Case outcome prediction becoming more automated"]),
   (pyStr "Educational Instruction",
    [pyStr "Basic content delivery can be automated through online platforms",
     pyStr "Standardized assessment and grading increasingly automated",
     pyStr "Administrative tasks can be handled by AI systems",
     pyStr "Some tutoring functions can be performed by AI"]),
   (pyStr "Healthcare Practitioners",
    [pyStr "Administrative tasks and documentation increasingly automated",
     pyStr "Basic diagnostic assistance provided by AI",
     pyStr "Patient scheduling and management can be automated",
     pyStr "Some monitoring functions can be performed by AI systems"])]

/-- `bls_job_mapper.generate_risk_factors`: category-specific factors (empty
when the category is unknown) followed by the generic ones, first
`min(5, len)` kept. -/
def generate_risk_factors (_job_title job_category : PyStr) : List PyStr :=
  let specific_factors := ((category_risk_factors.lookup job_category).getD [])
  let risk_factors := specific_factors ++ generic_risk_factors
  risk_factors.take (min 5 risk_factors.length)

/-- The `generic_protective_factors` list of `generate_protective_factors`. -/
def generic_protective_factors : List PyStr :=
  [pyStr "Complex decision-making in ambiguous situations",
   pyStr "Creative problem-solving in unpredictable environments",
   pyStr "Building relationships and emotional intelligence",
   pyStr "Adaptability to changing circumstances and requirements"]

/-- The `category_protective_factors` table of `generate_protective_factors`. -/
def category_protective_factors : List (PyStr × List PyStr) :=
  [(pyStr "Computer and Mathematical",
    [pyStr "Advanced systems architecture and design",
     pyStr "Novel algorithm development and implementation",
     pyStr "Complex integration of disparate technologies",
     pyStr "Innovative problem-solving in unique technical contexts"]),
   (pyStr "Management",
    [pyStr "Strategic leadership and organizational vision",
     pyStr "Complex stakeholder relationship management",
     pyStr "Change management in ambiguous environments",
     pyStr "Cultivating team culture and interpersonal dynamics"]),
   (pyStr "Business and Financial",
    [pyStr "Complex strategic financial planning",
     pyStr "Contextual business judgment requiring broad knowledge",
     pyStr "Negotiation and persuasion in high-stakes situations",
     pyStr "Novel market opportunity identification"]),
   (pyStr "Legal",
    [pyStr "Complex legal strategy development",
     pyStr "Persuasive courtroom advocacy",
     pyStr "Nuanced client counseling in ambiguous situations",
     pyStr "Novel legal theory development"]),
   (pyStr "Educational Instruction",
    [pyStr "Personalized teaching adapted to individual student needs",
     pyStr "Creating engaging learning environments",
     pyStr "Mentoring and developing student potential",
     pyStr "Addressing complex behavioral and learning challenges"]),
   (pyStr "Healthcare Practitioners",
    [pyStr "Complex clinical judgment in uncertain situations",
     pyStr "Empathetic patient care requiring emotional intelligence",
     pyStr "Physical assessment and intervention skills",
     pyStr "Integrated treatment planning for complex cases"])]

/-- `bls_job_mapper.generate_protective_factors`. -/
def generate_protective_factors (_job_title job_category : PyStr) : List PyStr :=
  let specific_factors := ((category_protective_factors.lookup job_category).getD [])
  let protective_factors := specific_factors ++ generic_protective_factors
  protective_factors.take (min 5 protective_factors.length)

/-- The `category_risk_scores` table of `calculate_ai_risk`: category to
`(year_1_risk, year_5_risk)`. Floats are modelled as exact rationals (all
table entries are exactly representable). -/
def category_risk_scores : List (PyStr × (ℚ × ℚ)) :=
  [(pyStr "Computer and Mathematical", (30, 50)),
   (pyStr "Management", (25, 45)),
   (pyStr "Business and Financial", (35, 55)),
   (pyStr "Architecture and Engineering", (20, 40)),
   (pyStr "Life, Physical, and Social Science", (15, 35)),
   (pyStr "Community and Social Service", (15, 30)),
   (pyStr "Legal", (25, 45)),
   (pyStr "Educational Instruction", (20, 35)),
   (pyStr "Arts, Design, Entertainment, Sports, and Media", (30, 50)),
   (pyStr "Healthcare Practitioners", (15, 30)),
   (pyStr "Healthcare Support", (20, 40)),
   (pyStr "Protective Service", (15, 30)),
   (pyStr "Food Preparation and Serving", (35, 60)),
   (pyStr "Building and Grounds Cleaning and Maintenance", (30, 55)),
   (pyStr "Personal Care and Service", (25, 45)),
   (pyStr "Sales and Related", (40, 65)),
   (pyStr "Office and Administrative Support", (45, 70)),
   (pyStr "Farming, Fishing, and Forestry", (30, 50)),
   (pyStr "Construction and Extraction", (20, 40)),
   (pyStr "Installation, Maintenance, and Repair", (25, 45)),
   (pyStr "Production", (40, 65)),
   (pyStr "Transportation and Material Moving", (35, 60))]

/-- `default_risk` of `calculate_ai_risk`. -/
def default_risk : ℚ × ℚ := (35, 55)

/-- The four-way `if year_5_risk < 30 ... elif < 50 ... elif < 70 ... else`
branch of `calculate_ai_risk`; it reads only the 5-year risk. -/
def riskCategoryFor (year_5_risk : ℚ) : PyStr :=
  if year_5_risk < 30 then pyStr "Low"
  else if year_5_risk < 50 then pyStr "Moderate"
  else if year_5_risk < 70 then pyStr "High"
  else pyStr "Very High"

/-- Result dictionary of `calculate_ai_risk` (the `analysis` prose is
assembled from these parts by string concatenation and is omitted as pure
formatting). -/
structure RiskAssessment where
  year_1_risk : ℚ
  year_5_risk : ℚ
  risk_category : PyStr
  risk_factors : List PyStr
  protective_factors : List PyStr
  deriving DecidableEq, Repr

/-- `bls_job_mapper.calculate_ai_risk`. -/
def calculate_ai_risk (job_title job_category : PyStr) : RiskAssessment :=
  let scores := (category_risk_scores.lookup job_category).getD default_risk
  { year_1_risk := scores.1
    year_5_risk := scores.2
    risk_category := riskCategoryFor scores.2
    risk_factors := generate_risk_factors job_title job_category
    protective_factors := generate_protective_factors job_title job_category }

/-- One data point of a BLS time series, as in the API response JSON. -/
structure SeriesItem where
  year : PyStr
  period : PyStr
  periodName : PyStr
  value : PyStr
  footnotes : List PyStr
  deriving DecidableEq, Repr

/-- One series of a BLS API response. -/
structure BlsSeries where
  seriesID : PyStr
  data : List SeriesItem
  deriving DecidableEq, Repr

/-- The dictionaries `get_bls_data` can return or receive: either a payload
dictionary with a status, a response time, a message list and
`Results.series`, or the `{"status": "error", "message": str(e)}`
dictionary built in the `except` branch. -/
inductive ApiResponse where
  | payload (status : PyStr) (responseTime : Nat) (message : List PyStr)
      (series : List BlsSeries)
  | errorDict (message : PyStr)
  deriving DecidableEq, Repr

/-- The fixed sample response returned by `get_bls_data` when `BLS_API_KEY`
is not set, for head series id `s0`. -/
def sampleResponse (s0 : PyStr) : ApiResponse :=
  .payload (pyStr "success") 100 []
    [{ seriesID := s0
       data :=
        [{ year := pyStr "2020", period := pyStr "A01", periodName := pyStr "Annual",
           value := pyStr "120000", footnotes := [] },
         { year := pyStr "2021", period := pyStr "A01", periodName := pyStr "Annual",
           value := pyStr "125000", footnotes := [] },
         { year := pyStr "2022", period := pyStr "A01", periodName := pyStr "Annual",
           value := pyStr "130000", footnotes := [] },
         { year := pyStr "2023", period := pyStr "A01", periodName := pyStr "Annual",
           value := pyStr "135000", footnotes := [] },
         { year := pyStr "2024", period := pyStr "A01", periodName := pyStr "Annual",
           value := pyStr "140000", footnotes := [] }] }]

/-- An uncaught Python exception of the embedded code; the only one the
embedded paths can raise is the `IndexError` of `series_ids[0]` on an empty
list. -/
inductive PyFault where
  | indexError
  deriving DecidableEq, Repr

/-- Environment of `bls_connector`: the `BLS_API_KEY` variable (a missing
variable is `none`) and the network, `requests.post` to the BLS endpoint,
which either returns a response or raises a `RequestException` carrying a
message. One upstream call is one invocation of this function. -/
structure FetchEnv where
  api_key : Option PyStr
  upstream : List PyStr → PyStr → PyStr → Except PyStr ApiResponse

/-- Python truthiness of `api_key` (`if not api_key`): an unset variable or
an empty string are both falsy. -/
def keyConfigured : Option PyStr → Bool
  | none => false
  | some k => !k.isEmpty

/-- The module-level `_api_cache` of `bls_connector`, made explicit, plus a
counter of upstream network requests attempted (for stating the
memoization property). -/
structure ApiState where
  cache : List (PyStr × ApiResponse)
  calls : Nat
  deriving Repr

/-- Lexicographic comparison on code-point lists: Python `sorted` on
strings. -/
def pyStrLe : PyStr → PyStr → Bool
  | [], _ => true
  | _ :: _, [] => false
  | a :: as, b :: bs => if a < b then true else if b < a then false else pyStrLe as bs

/-- Insertion into a sorted list, for modelling Python `sorted`. -/
def insertSorted (x : PyStr) : List PyStr → List PyStr
  | [] => [x]
  | y :: ys => if pyStrLe x y then x :: y :: ys else y :: insertSorted x ys

/-- Python `sorted(series_ids)`. -/
def pySorted (l : List PyStr) : List PyStr := l.foldr insertSorted []

/-- Python `",".join(l)`. -/
def pyJoinComma : List PyStr → PyStr
  | [] => []
  | [s] => s
  | s :: rest => s ++ pyStr "," ++ pyJoinComma rest

/-- `cache_key = f"{','.join(sorted(series_ids))}_{start_year}_{end_year}"`. -/
def cacheKey (series_ids : List PyStr) (start_year end_year : PyStr) : PyStr :=
  pyJoinComma (pySorted series_ids) ++ pyStr "_" ++ start_year ++ pyStr "_" ++ end_year

/-- One flattened row built by `parse_occupation_response`. -/
structure OccRow where
  series_id : PyStr
  year : PyStr
  period : PyStr
  value : PyStr
  footnotes : List PyStr
  deriving DecidableEq, Repr

/-- The labeled error messages `parse_occupation_response`,
`get_occupation_data` and `get_employment_projection` can produce, kept
structured instead of reproducing Python's f-string rendering:
`apiRequestFailed` is `"BLS API request failed: {message}"` for the given
response, `noData` is `"No data found for the requested occupation"`,
`noSeriesMapping code` is `"No BLS series ID mapping found for occupation
code {code}"`, and `noProjection code` is `"No employment projections found
for occupation code {code}"`. -/
inductive OccErrMsg where
  | apiRequestFailed (response : ApiResponse)
  | noData
  | noSeriesMapping (code : PyStr)
  | noProjection (code : PyStr)
  deriving DecidableEq, Repr

/-- The two dictionary shapes `parse_occupation_response` and
`get_occupation_data` return: `{"status": "success", ..., "latest_value"}`
or `{"status": "error", "message"}`. -/
inductive OccResult where
  | success (occupation_code : PyStr) (data : List OccRow) (latest_value : PyStr)
  | error (message : OccErrMsg)
  deriving DecidableEq, Repr

/-- `Results.series` of a response dictionary; the error dictionary has no
`Results` key, so `.get("Results", {}).get("series", [])` yields `[]`. -/
def responseSeries : ApiResponse → List BlsSeries
  | .payload _ _ _ series => series
  | .errorDict _ => []

/-- The `status` entry of a response dictionary. -/
def responseStatus : ApiResponse → PyStr
  | .payload status _ _ _ => status
  | .errorDict _ => pyStr "error"

/-- The row-flattening double loop of `parse_occupation_response`. -/
def flattenSeries (series : List BlsSeries) : List OccRow :=
  series.flatMap (fun s =>
    s.data.map (fun item =>
      { series_id := s.seriesID, year := item.year, period := item.period,
        value := item.value, footnotes := item.footnotes }))

/-- `bls_connector.parse_occupation_response`: reject any response whose
status is not `REQUEST_SUCCEEDED`; otherwise flatten the series rows and
take the first row's `value` as `latest_value` (`df.iloc[0]["value"]`), or
report that no data was found. -/
def parse_occupation_response (response_data : ApiResponse) (occ_code : PyStr) : OccResult :=
  if responseStatus response_data ≠ pyStr "REQUEST_SUCCEEDED" then
    .error (.apiRequestFailed response_data)
  else
    match flattenSeries (responseSeries response_data) with
    | [] => .error .noData
    | first :: rest => .success occ_code (first :: rest) first.value

/-- `series_mapping` of `get_occupation_data`: the deliberately minimal
occupation-code → series-id table. -/
def series_mapping : List (PyStr × PyStr) :=
  [(pyStr "15-1252", pyStr "OEU1025560000000015125201"),
   (pyStr "11-9111", pyStr "OEU1025560000000011911101")]

/-- Decimal rendering of a year, for `str(int(current_year)-5)` and
`time.strftime("%Y")`. -/
def natToPyStr (n : Nat) : PyStr := pyStr (toString n)

/-- The projections sub-dictionary of `get_employment_projection`. -/
structure Projections where
  current_employment : ℤ
  projected_employment : ℤ
  percent_change : ℚ
  annual_job_openings : ℤ
  deriving DecidableEq, Repr

/-- Return shape of `get_employment_projection`. -/
inductive ProjResult where
  | success (occupation_code : PyStr) (projections : Projections)
  | error (message : OccErrMsg)
  deriving DecidableEq, Repr

/-- The fixed `projections` table of `bls_connector.get_employment_projection`. -/
def projections_table : List (PyStr × Projections) :=
  [(pyStr "15-1252",
    { current_employment := 1365500, projected_employment := 1572900,
      percent_change := (152 : ℚ) / 10, annual_job_openings := 162900 }),
   (pyStr "29-1141",
    { current_employment := 3130600, projected_employment := 3458200,
      percent_change := (105 : ℚ) / 10, annual_job_openings := 203200 }),
   (pyStr "43-9021",
    { current_employment := 149900, projected_employment := 112400,
      percent_change := -25, annual_job_openings := 14200 })]

/-- `bls_connector.get_employment_projection`. -/
def get_employment_projection (occ_code : PyStr) : ProjResult :=
  match (projections_table.lookup occ_code : Option Projections) with
  | some p => .success occ_code p
  | none => .error (.noProjection occ_code)

/-- `projection_data.get("projections", {}).get(field)`: `none` on the
error dictionary. -/
def projGet {α : Type} (p : ProjResult) (f : Projections → α) : Option α :=
  match p with
  | .success _ pr => some (f pr)
  | .error _ => none

/-- `occupation_data.get("latest_value")`: `none` on the error dictionary. -/
def occLatestValue : OccResult → Option PyStr
  | .success _ _ v => some v
  | .error _ => none

/-- `bls_connector.get_bls_data`. Returns the response (or the uncaught
`IndexError` of the sample path on an empty `series_ids`) together with the
updated cache state. Branches, as in the source: no usable API key → fixed
sample payload; cached key → cached response, no request; otherwise one
upstream request, whose success is cached and whose `RequestException`
becomes an error dictionary. -/
def get_bls_data (env : FetchEnv) (st : ApiState) (series_ids : List PyStr)
    (start_year end_year : PyStr) : Except PyFault ApiResponse × ApiState :=
  if !keyConfigured env.api_key then
    match series_ids with
    | [] => (.error .indexError, st)
    | s0 :: _ => (.ok (sampleResponse s0), st)
  else
    let key := cacheKey series_ids start_year end_year
    match (st.cache.lookup key : Option ApiResponse) with
    | some cached => (.ok cached, st)
    | none =>
        match env.upstream series_ids start_year end_year with
        | .ok data =>
            (.ok data, { cache := (key, data) :: st.cache, calls := st.calls + 1 })
        | .error e =>
            (.ok (.errorDict e), { st with calls := st.calls + 1 })

/-- `bls_connector.get_occupation_data`. `year` is the wall-clock year
(`time.strftime("%Y")`). A code outside `series_mapping` yields the labeled
`noSeriesMapping` error result, not an exception. -/
def get_occupation_data (env : FetchEnv) (st : ApiState) (year : Nat)
    (occ_code : PyStr) : Except PyFault OccResult × ApiState :=
  match (series_mapping.lookup occ_code : Option PyStr) with
  | some series_id =>
      let r := get_bls_data env st [series_id] (natToPyStr (year - 5)) (natToPyStr year)
      match r.1 with
      | .ok data => (.ok (parse_occupation_response data occ_code), r.2)
      | .error f => (.error f, r.2)
  | none => (.ok (.error (.noSeriesMapping occ_code)), st)

/-- A persisted `bls_job_data` row (the auto-increment `id` column is
dropped: nothing in the embedded code reads it). `last_updated` is a
calendar date as an absolute day number; the schema stores it as a
`"%Y-%m-%d"` string, whose lexicographic `ORDER BY ... DESC` agrees with
day-number order. `median_wage` holds what the code actually assigns to
the field: the string `latest_value` of the occupation response, or
nothing. -/
structure BlsJobData where
  occupation_code : PyStr
  job_title : PyStr
  standardized_title : PyStr
  job_category : PyStr
  current_employment : Option ℤ
  projected_employment : Option ℤ
  percent_change : Option ℚ
  annual_job_openings : Option ℤ
  median_wage : Option PyStr
  last_updated : Nat
  deriving DecidableEq, Repr

/-- The rows of the `bls_job_data` table. -/
abbrev BlsStore : Type := List BlsJobData

/-- `SELECT * FROM bls_job_data WHERE occupation_code = :code ORDER BY
last_updated DESC LIMIT 1`. -/
def latestFor (store : BlsStore) (code : PyStr) : Option BlsJobData :=
  (store.filter (fun r => r.occupation_code = code)).foldl
    (fun acc r =>
      match acc with
      | none => some r
      | some b => if b.last_updated < r.last_updated then some r else some b)
    none

/-- `bls_job_mapper.get_bls_data_from_db`: absent engine or absent row give
`none`; a fetched row is served only when strictly less than 90 days old
(`(datetime.now() - last_updated).days < 90`), and a stale row is merely
not served — the function only reads the store. `today` is the current
day number. -/
def get_bls_data_from_db (engine : Option BlsStore) (today : Nat)
    (occupation_code : PyStr) : Option BlsJobData :=
  match engine with
  | none => none
  | some store =>
      match latestFor store occupation_code with
      | none => none
      | some row =>
          if (today : ℤ) - (row.last_updated : ℤ) < 90 then some row else none

/-- `bls_job_mapper.save_bls_data_to_db`, on the store contents: update
every row of the code if one exists, else insert. (With no engine the
source returns `False` and writes nothing; callers pass the store through
`Option` accordingly.) -/
def save_bls_data_to_db (store : BlsStore) (data : BlsJobData) : BlsStore :=
  if store.any (fun r => r.occupation_code = data.occupation_code) then
    store.map (fun r => if r.occupation_code = data.occupation_code then data else r)
  else store ++ [data]

/-- `bls_job_mapper.fetch_bls_data`: resolve the title, serve a fresh
database row if one exists, otherwise assemble a record from
`get_occupation_data` and `get_employment_projection` (absent pieces
becoming `none` through the `.get` chains), persist it, and return it.
Returns the record plus the updated store and API-cache state. -/
def fetch_bls_data (env : FetchEnv) (engine : Option BlsStore) (st : ApiState)
    (today year : Nat) (job_title : PyStr) :
    Except PyFault BlsJobData × Option BlsStore × ApiState :=
  let resolved := find_occupation_code job_title
  let occupation_code := resolved.1
  let standardized_title := resolved.2.1
  let job_category := resolved.2.2
  match get_bls_data_from_db engine today occupation_code with
  | some db_data => (.ok db_data, engine, st)
  | none =>
      let r := get_occupation_data env st year occupation_code
      match r.1 with
      | .error f => (.error f, engine, r.2)
      | .ok occupation_data =>
          let projection_data := get_employment_projection occupation_code
          let bls_data : BlsJobData :=
            { occupation_code := occupation_code
              job_title := job_title
              standardized_title := standardized_title
              job_category := job_category
              current_employment := projGet projection_data (·.current_employment)
              projected_employment := projGet projection_data (·.projected_employment)
              percent_change := projGet projection_data (·.percent_change)
              annual_job_openings := projGet projection_data (·.annual_job_openings)
              median_wage := occLatestValue occupation_data
              last_updated := today }
          (.ok bls_data, (engine.map (fun s => save_bls_data_to_db s bls_data)), r.2)

/-- Truncation toward zero of a rational: Python `int(...)` applied to a
float value (floor for nonnegative values, ceiling for negative ones). -/
def truncQ (q : ℚ) : ℤ := if 0 ≤ q then ⌊q⌋ else ⌈q⌉

/-- Python truthiness of an optional integer (`not current`): absent and
zero are falsy. -/
def pyTruthyInt : Option ℤ → Bool
  | none => false
  | some v => v ≠ 0

/-- `job_api_integration_database_only.generate_employment_trend`. A falsy
(absent or zero) endpoint, or `num_years <= 1`, short-circuits to
`[current] if current else []`; otherwise each year's value is
`int(current + annual_change * i)` with
`annual_change = (projected - current) / (num_years - 1)` (exact rational
division, truncated toward zero). -/
def generate_employment_trend (current projected : Option ℤ) (num_years : ℤ) : List ℤ :=
  if !pyTruthyInt current ∨ !pyTruthyInt projected ∨ num_years ≤ 1 then
    if pyTruthyInt current then [current.getD 0] else []
  else
    let c := current.getD 0
    let annual_change : ℚ := ((projected.getD 0 - c : ℤ) : ℚ) / ((num_years : ℚ) - 1)
    (List.range num_years.toNat).map (fun i : ℕ => truncQ ((c : ℚ) + annual_change * (i : ℚ)))

/-- A store row used to instantiate the freshness theorems on concrete
inputs. -/
def demoRecord (d : Nat) : BlsJobData :=
  { occupation_code := pyStr "15-1252"
    job_title := pyStr "Software Developer"
    standardized_title := pyStr "software developer"
    job_category := pyStr "Computer and Mathematical"
    current_employment := some 1365500
    projected_employment := some 1572900
    percent_change := none
    annual_job_openings := some 162900
    median_wage := none
    last_updated := d }

/-- An environment with no configured `BLS_API_KEY`, used to instantiate
the offline-path theorems on concrete inputs. -/
def offlineEnv : FetchEnv :=
  { api_key := none
    upstream := fun _ _ _ => Except.error (pyStr "network unavailable") }

/-- C1: `get_bls_data_from_db` returns absent with no engine or no stored
record for the code; when the query returns a row, the row is served
exactly when now minus its `last_updated` date is strictly below 90 days
(so 91 days old is a miss, 89 days old is a hit), and the stale row is
only withheld, never modified — the function reads the store and returns a
value. -/
theorem C1_getFresh_freshness :
    (∀ today code, get_bls_data_from_db none today code = none) ∧
    (∀ (store : BlsStore) (today : Nat) code, latestFor store code = none →
        get_bls_data_from_db (some store) today code = none) ∧
    (∀ (store : BlsStore) (today : Nat) code row, latestFor store code = some row →
        (90 ≤ (today : ℤ) - (row.last_updated : ℤ) →
            get_bls_data_from_db (some store) today code = none) ∧
        ((today : ℤ) - (row.last_updated : ℤ) < 90 →
            get_bls_data_from_db (some store) today code = some row)) ∧
    (∀ (store : BlsStore) (today : Nat) code row, latestFor store code = some row →
        (row.last_updated + 91 = today →
            get_bls_data_from_db (some store) today code = none) ∧
        (row.last_updated + 89 = today →
            get_bls_data_from_db (some store) today code = some row)) := by
  refine ⟨fun _ _ => rfl, ?_, ?_, ?_⟩
  · intro store today code h
    simp [get_bls_data_from_db, h]
  · intro store today code row h
    constructor
    · intro hstale
      simp only [get_bls_data_from_db, h]
      rw [if_neg (not_lt.mpr hstale)]
    · intro hfresh
      simp only [get_bls_data_from_db, h]
      rw [if_pos hfresh]
  · intro store today code row h
    constructor
    · intro hd
      simp only [get_bls_data_from_db, h]
      rw [if_neg (by omega)]
    · intro hd
      simp only [get_bls_data_from_db, h]
      rw [if_pos (by omega)]

/-- Witness for C1: one record, 91 days old, is a miss; the same record,
89 days old, is a hit. -/
theorem C1_getFresh_freshness_witness :
    get_bls_data_from_db (some [demoRecord 10]) 101 (pyStr "15-1252") = none ∧
    get_bls_data_from_db (some [demoRecord 10]) 99 (pyStr "15-1252") = some (demoRecord 10) := by
  constructor
  · exact (C1_getFresh_freshness.2.2.2 [demoRecord 10] 101 (pyStr "15-1252")
      (demoRecord 10) (by decide)).1 (by decide)
  · exact (C1_getFresh_freshness.2.2.2 [demoRecord 10] 99 (pyStr "15-1252")
      (demoRecord 10) (by decide)).2 (by decide)

/-- C2, counterexample: the claim says an unmatched category defaults to
the risk pair `(35.0, 55.0)` with tier `Moderate`; at the concrete unknown
category `"General"` the code indeed uses the default pair, but its 5-year
risk 55.0 falls in the `[50, 70)` branch, so the tier is `High`, not
`Moderate`. -/
theorem C2_default_tier_counterexample :
    (category_risk_scores.lookup (pyStr "General") = none) ∧
    (calculate_ai_risk (pyStr "astronaut") (pyStr "General")).year_1_risk = 35 ∧
    (calculate_ai_risk (pyStr "astronaut") (pyStr "General")).year_5_risk = 55 ∧
    ¬ (calculate_ai_risk (pyStr "astronaut") (pyStr "General")).risk_category
        = pyStr "Moderate" := by
  refine ⟨by decide, by decide, by decide, by decide⟩

/-- C2, amended: a job category absent from `category_risk_scores` defaults
to the risk pair `(35.0, 55.0)`, and the resulting tier is `High` (55.0
lies in the `[50, 70)` band). -/
theorem C2_default_risk :
    ∀ (t cat : PyStr), category_risk_scores.lookup cat = none →
      (calculate_ai_risk t cat).year_1_risk = 35 ∧
      (calculate_ai_risk t cat).year_5_risk = 55 ∧
      (calculate_ai_risk t cat).risk_category = pyStr "High" := by
  intro t cat h
  refine ⟨?_, ?_, ?_⟩ <;> simp [calculate_ai_risk, h, default_risk, riskCategoryFor]
  all_goals decide

/-- Witness for C2: the amended default behavior at the concrete category
`"General"`. -/
theorem C2_default_risk_witness :
    (calculate_ai_risk (pyStr "astronaut") (pyStr "General")).year_1_risk = 35 ∧
    (calculate_ai_risk (pyStr "astronaut") (pyStr "General")).year_5_risk = 55 ∧
    (calculate_ai_risk (pyStr "astronaut") (pyStr "General")).risk_category = pyStr "High" :=
  C2_default_risk (pyStr "astronaut") (pyStr "General") (by decide)

/-- C3: the tier of `calculate_ai_risk` is the value of `riskCategoryFor`
on the returned 5-year risk alone, and `riskCategoryFor` implements the
half-open bands `<30 → Low`, `[30,50) → Moderate`, `[50,70) → High`,
`>=70 → Very High`; in particular 29.999 is Low, 30.0 is Moderate, 49.999
is Moderate, 50.0 is High and 70.0 is Very High. -/
theorem C3_tier_boundaries :
    (∀ t cat, (calculate_ai_risk t cat).risk_category
        = riskCategoryFor (calculate_ai_risk t cat).year_5_risk) ∧
    (∀ y : ℚ,
      (y < 30 → riskCategoryFor y = pyStr "Low") ∧
      (30 ≤ y → y < 50 → riskCategoryFor y = pyStr "Moderate") ∧
      (50 ≤ y → y < 70 → riskCategoryFor y = pyStr "High") ∧
      (70 ≤ y → riskCategoryFor y = pyStr "Very High")) ∧
    riskCategoryFor ((29999 : ℚ) / 1000) = pyStr "Low" ∧
    riskCategoryFor 30 = pyStr "Moderate" ∧
    riskCategoryFor ((49999 : ℚ) / 1000) = pyStr "Moderate" ∧
    riskCategoryFor 50 = pyStr "High" ∧
    riskCategoryFor 70 = pyStr "Very High" := by
  refine ⟨fun t cat => rfl, ?_, ?_, ?_, ?_, ?_, ?_⟩
  · intro y
    refine ⟨?_, ?_, ?_, ?_⟩ <;> intros <;> unfold riskCategoryFor <;>
      split_ifs <;> first | rfl | linarith
  all_goals unfold riskCategoryFor
  all_goals split_ifs <;> first | rfl | (exfalso; norm_num at *)

/-- Witness for C3: the band implications instantiated at 45.0 (Moderate)
and 70.0 (Very High). -/
theorem C3_tier_boundaries_witness :
    riskCategoryFor 45 = pyStr "Moderate" ∧ riskCategoryFor 70 = pyStr "Very High" := by
  constructor
  · exact (C3_tier_boundaries.2.1 45).2.1 (by norm_num) (by norm_num)
  · exact (C3_tier_boundaries.2.1 70).2.2.2 (by norm_num)

/-- C7: with a configured API key and an upstream that answers the request,
calling `get_bls_data` again with the identical argument tuple returns the
very response of the first call and attempts no further network request:
the state after the repeat call (its cache and its request counter) is the
state left by the first call. -/
theorem C7_memoized_fetch :
    ∀ (env : FetchEnv) (st : ApiState) (series_ids : List PyStr)
      (start_year end_year : PyStr) (resp : ApiResponse),
      keyConfigured env.api_key = true →
      env.upstream series_ids start_year end_year = Except.ok resp →
      get_bls_data env (get_bls_data env st series_ids start_year end_year).2
          series_ids start_year end_year
        = get_bls_data env st series_ids start_year end_year ∧
      (get_bls_data env (get_bls_data env st series_ids start_year end_year).2
          series_ids start_year end_year).2.calls
        = (get_bls_data env st series_ids start_year end_year).2.calls := by
  intro env st series_ids start_year end_year resp hkey hup
  have hmain :
      get_bls_data env (get_bls_data env st series_ids start_year end_year).2
          series_ids start_year end_year
        = get_bls_data env st series_ids start_year end_year := by
    simp only [get_bls_data, hkey, Bool.not_true, Bool.false_eq_true, if_false]
    cases hc : List.lookup (cacheKey series_ids start_year end_year) st.cache with
    | some cached => simp [hc]
    | none => simp [hc, hup, List.lookup]
  exact ⟨hmain, by rw [hmain]⟩

/-- Witness for C7: a concrete one-entry request repeated against a
concrete environment. -/
theorem C7_memoized_fetch_witness :
    (get_bls_data
        { api_key := some (pyStr "k"),
          upstream := fun _ _ _ => Except.ok (sampleResponse (pyStr "SID1")) }
        (get_bls_data
          { api_key := some (pyStr "k"),
            upstream := fun _ _ _ => Except.ok (sampleResponse (pyStr "SID1")) }
          { cache := [], calls := 0 } [pyStr "SID1"] (pyStr "2019") (pyStr "2024")).2
        [pyStr "SID1"] (pyStr "2019") (pyStr "2024")).2.calls
      = (get_bls_data
          { api_key := some (pyStr "k"),
            upstream := fun _ _ _ => Except.ok (sampleResponse (pyStr "SID1")) }
          { cache := [], calls := 0 } [pyStr "SID1"] (pyStr "2019") (pyStr "2024")).2.calls :=
  (C7_memoized_fetch
    { api_key := some (pyStr "k"),
      upstream := fun _ _ _ => Except.ok (sampleResponse (pyStr "SID1")) }
    { cache := [], calls := 0 } [pyStr "SID1"] (pyStr "2019") (pyStr "2024")
    (sampleResponse (pyStr "SID1")) (by decide) rfl).2

/-- C9, counterexample: the claim asks for a non-failing synthetic sample
for every `seriesIds` input when no credential is configured, but with an
empty `seriesIds` list the sample path's `series_ids[0]` subscript raises
`IndexError` instead of returning a response. -/
theorem C9_sample_counterexample :
    (get_bls_data offlineEnv { cache := [], calls := 0 } []
        (pyStr "2020") (pyStr "2024")).1 = Except.error PyFault.indexError := rfl

/-- C9, amended: when no upstream credential is configured, `get_bls_data`
on every NON-EMPTY `seriesIds` list and any year range returns the fixed
synthetic sample payload (keyed by the first requested series id) as a
success, deterministically, touching neither the cache nor the network. -/
theorem C9_sample_offline :
    ∀ (env : FetchEnv) (st : ApiState) (s0 : PyStr) (rest : List PyStr)
      (start_year end_year : PyStr),
      keyConfigured env.api_key = false →
      get_bls_data env st (s0 :: rest) start_year end_year
        = (Except.ok (sampleResponse s0), st) := by
  intro env st s0 rest start_year end_year hkey
  simp [get_bls_data, hkey]

/-- Witness for C9: the offline sample success on a concrete request. -/
theorem C9_sample_offline_witness :
    get_bls_data offlineEnv { cache := [], calls := 0 } [pyStr "SID1"]
        (pyStr "2020") (pyStr "2024")
      = (Except.ok (sampleResponse (pyStr "SID1")), { cache := [], calls := 0 }) :=
  C9_sample_offline offlineEnv { cache := [], calls := 0 } (pyStr "SID1") []
    (pyStr "2020") (pyStr "2024") (by decide)

/-- C10: when no credential is configured and `series_ids` is empty,
`get_bls_data` raises `IndexError` (the sample path reads `series_ids[0]`
unconditionally), so the offline path is total only for non-empty series
lists — on which it does return a response. -/
theorem C10_empty_series_fault :
    ∀ (env : FetchEnv) (st : ApiState) (start_year end_year : PyStr),
      keyConfigured env.api_key = false →
      get_bls_data env st [] start_year end_year
        = (Except.error PyFault.indexError, st) := by
  intro env st start_year end_year hkey
  simp [get_bls_data, hkey]

/-- Witness for C10: the concrete offline fault on an empty series list. -/
theorem C10_empty_series_fault_witness :
    get_bls_data offlineEnv { cache := [], calls := 0 } [] (pyStr "2020") (pyStr "2024")
      = (Except.error PyFault.indexError, { cache := [], calls := 0 }) :=
  C10_empty_series_fault offlineEnv { cache := [], calls := 0 }
    (pyStr "2020") (pyStr "2024") (by decide)

/-- C8: a code outside `series_mapping` makes `get_occupation_data` return
the labeled no-mapping error result (no exception, state untouched); and
on a database miss `fetch_bls_data` for a title resolving to such a code
still returns a complete record, with `median_wage` null and — when the
code is also outside the projections table — all four projection
statistics null as well. -/
theorem C8_unmapped_code_degrades :
    (∀ (env : FetchEnv) (st : ApiState) (year : Nat) (code : PyStr),
      series_mapping.lookup code = none →
      get_occupation_data env st year code
        = (Except.ok (OccResult.error (OccErrMsg.noSeriesMapping code)), st)) ∧
    (∀ (env : FetchEnv) (engine : Option BlsStore) (st : ApiState)
       (today year : Nat) (title : PyStr),
      series_mapping.lookup (find_occupation_code title).1 = none →
      get_bls_data_from_db engine today (find_occupation_code title).1 = none →
      ∃ r : BlsJobData,
        (fetch_bls_data env engine st today year title).1 = Except.ok r ∧
        r.median_wage = none ∧
        (projections_table.lookup (find_occupation_code title).1 = none →
          r.current_employment = none ∧ r.projected_employment = none ∧
          r.percent_change = none ∧ r.annual_job_openings = none)) := by
  constructor
  · intro env st year code h
    simp [get_occupation_data, h]
  · intro env engine st today year title hmap hdb
    simp only [fetch_bls_data, hdb]
    simp only [get_occupation_data, hmap]
    refine ⟨_, rfl, rfl, ?_⟩
    intro hproj
    simp [get_employment_projection, hproj, projGet]

/-- Witness for C8: the title `"lawyer"` resolves to code `23-1011`, which
is in neither fixed table; with no database engine the pipeline returns a
record whose five statistics fields are all null. -/
theorem C8_unmapped_code_degrades_witness :
    ∃ r : BlsJobData,
      (fetch_bls_data offlineEnv none { cache := [], calls := 0 } 100 2024
          (pyStr "lawyer")).1 = Except.ok r ∧
      r.median_wage = none ∧
      (projections_table.lookup (find_occupation_code (pyStr "lawyer")).1 = none →
        r.current_employment = none ∧ r.projected_employment = none ∧
        r.percent_change = none ∧ r.annual_job_openings = none) :=
  C8_unmapped_code_degrades.2 offlineEnv none { cache := [], calls := 0 } 100 2024
    (pyStr "lawyer") (by decide) rfl

/-- The suffix loop strips exactly the first list entry that matches, when
every entry before it fails to match. -/
theorem stripOneSuffix_append (s : PyStr) (L1 L2 : List PyStr) (suf : PyStr)
    (h1 : ∀ x ∈ L1, List.isSuffixOf x s = false)
    (h : List.isSuffixOf suf s = true) :
    stripOneSuffix (L1 ++ suf :: L2) s = s.take (s.length - suf.length) := by
  induction L1 with
  | nil => simp [stripOneSuffix, h]
  | cons a as ih =>
      have ha := h1 a (by simp)
      simp only [List.cons_append, stripOneSuffix, ha, Bool.false_eq_true, if_false]
      exact ih fun x hx => h1 x (by simp [hx])

/-- The suffix loop is the identity when no list entry matches. -/
theorem stripOneSuffix_of_no_match (s : PyStr) (L : List PyStr)
    (h : ∀ x ∈ L, List.isSuffixOf x s = false) :
    stripOneSuffix L s = s := by
  induction L with
  | nil => rfl
  | cons a as ih =>
      have ha := h a (by simp)
      simp only [stripOneSuffix, ha, Bool.false_eq_true, if_false]
      exact ih fun x hx => h x (by simp [hx])

/-- C6: normalization lower-cases, trims, and removes exactly the first
suffix of the ordered `SUFFIXES` list that the trimmed string ends with
(removing nothing when none matches, and never removing a second suffix);
consequently `"Software Engineer III"` normalizes to
`"software engineer"`, an exact key of the table, and resolves to code
`15-1252`. -/
theorem C6_normalize_strips_first_suffix :
    (∀ (t : PyStr) (L1 L2 : List PyStr) (suf : PyStr),
      SUFFIXES = L1 ++ suf :: L2 →
      (∀ x ∈ L1, List.isSuffixOf x (pyStrip (pyLower t)) = false) →
      List.isSuffixOf suf (pyStrip (pyLower t)) = true →
      standardize_job_title t
        = (pyStrip (pyLower t)).take ((pyStrip (pyLower t)).length - suf.length)) ∧
    (∀ t : PyStr,
      (∀ x ∈ SUFFIXES, List.isSuffixOf x (pyStrip (pyLower t)) = false) →
      standardize_job_title t = pyStrip (pyLower t)) ∧
    standardize_job_title (pyStr "Software Engineer III") = pyStr "software engineer" ∧
    JOB_TITLE_TO_SOC.lookup (pyStr "software engineer") = some (pyStr "15-1252") ∧
    (find_occupation_code (pyStr "Software Engineer III")).1 = pyStr "15-1252" := by
  refine ⟨?_, ?_, by decide, by decide, by decide⟩
  · intro t L1 L2 suf hsplit h1 h
    unfold standardize_job_title
    rw [hsplit]
    exact stripOneSuffix_append _ L1 L2 suf h1 h
  · intro t h
    unfold standardize_job_title
    exact stripOneSuffix_of_no_match _ SUFFIXES h

/-- Witness for C6: on `"Software Engineer III"` the first matching entry
of the ordered suffix list is `" iii"` (after `" i"` and `" ii"` fail),
and stripping it gives `"software engineer"`. -/
theorem C6_normalize_strips_first_suffix_witness :
    standardize_job_title (pyStr "Software Engineer III")
      = (pyStrip (pyLower (pyStr "Software Engineer III"))).take
          ((pyStrip (pyLower (pyStr "Software Engineer III"))).length
            - (pyStr " iii").length) :=
  C6_normalize_strips_first_suffix.1 (pyStr "Software Engineer III")
    [pyStr " i", pyStr " ii"]
    [pyStr " iv", pyStr " v", pyStr " specialist", pyStr " assistant",
     pyStr " associate", pyStr " senior", pyStr " junior", pyStr " lead"]
    (pyStr " iii") (by decide) (by decide) (by decide)

/-- Truncation toward zero is monotone. -/
theorem truncQ_mono {q r : ℚ} (h : q ≤ r) : truncQ q ≤ truncQ r := by
  unfold truncQ
  rcases le_or_lt 0 q with hq | hq <;> rcases le_or_lt 0 r with hr | hr
  · exact if_pos hq ▸ if_pos hr ▸ Int.floor_le_floor h
  · exact absurd (hq.trans h) (not_le.mpr hr)
  · rw [if_neg (not_le.mpr hq), if_pos hr]
    calc ⌈q⌉ ≤ 0 := Int.ceil_le.mpr (by exact_mod_cast hq.le)
    _ ≤ ⌊r⌋ := Int.floor_nonneg.mpr hr
  · rw [if_neg (not_le.mpr hq), if_neg (not_le.mpr hr)]
    exact Int.ceil_le_ceil h

/-- A map over `range` whose function increases step by step is a
non-decreasing list. -/
theorem chain_le_map_range (f : ℕ → ℤ) (n : ℕ) (hf : ∀ i, f i ≤ f (i + 1)) :
    List.Chain' (· ≤ ·) ((List.range n).map f) := by
  rw [List.chain'_map, List.chain'_iff_get]
  intro i h
  simpa using hf ((List.range n).get ⟨i, by omega⟩)

/-- C4, counterexample: the claim says an absent endpoint yields an empty
trend, but with the current endpoint present (100) and only the projected
endpoint absent the function returns the one-element trend `[100]`, not
`[]`. -/
theorem C4_trend_counterexample :
    ¬ generate_employment_trend (some 100) none 11 = [] ∧
    generate_employment_trend (some 100) none 11 = [100] := by
  exact ⟨by decide, by decide⟩

/-- C4, amended: with both endpoints present and nonzero and at least two
years, the trend is `int(current + i * (projected - current) / (n - 1))`
(exact division, truncated toward zero) for `i` in `0..n-1`; an absent (or
zero) current endpoint yields the empty trend, while an absent (or zero)
projected endpoint with a present current yields the one-element trend
`[current]`; for current 100, projected 200 and 11 years the first element
is 100 and the last 200, and the trend is monotonically non-decreasing
whenever projected > current. -/
theorem C4_employment_trend :
    (∀ (c p n : ℤ), c ≠ 0 → p ≠ 0 → 2 ≤ n →
      generate_employment_trend (some c) (some p) n
        = (List.range n.toNat).map
            (fun i : ℕ => truncQ ((c : ℚ) + (i : ℚ) * ((p : ℚ) - (c : ℚ)) / ((n : ℚ) - 1)))) ∧
    (∀ (proj : Option ℤ) (n : ℤ), generate_employment_trend none proj n = []) ∧
    (∀ (c n : ℤ), c ≠ 0 → generate_employment_trend (some c) none n = [c]) ∧
    (generate_employment_trend (some 100) (some 200) 11)[0]? = some 100 ∧
    (generate_employment_trend (some 100) (some 200) 11)[10]? = some 200 ∧
    (∀ (c p n : ℤ), c < p →
      List.Chain' (· ≤ ·) (generate_employment_trend (some c) (some p) n)) := by
  refine ⟨?_, ?_, ?_, by with_unfolding_all rfl, by with_unfolding_all rfl, ?_⟩
  · intro c p n hc hp hn
    rw [generate_employment_trend, if_neg]
    · simp only [Option.getD_some]
      refine List.map_congr_left fun i _ => ?_
      congr 1
      push_cast
      ring
    · simp [pyTruthyInt, hc, hp]
      omega
  · intro proj n
    rw [generate_employment_trend, if_pos (by simp [pyTruthyInt])]
    simp [pyTruthyInt]
  · intro c n hc
    rw [generate_employment_trend, if_pos (by simp [pyTruthyInt])]
    simp [pyTruthyInt, hc]
  · intro c p n hlt
    rw [generate_employment_trend]
    split_ifs with hdeg htru
    · simp
    · simp
    · simp only [Option.getD_some]
      apply chain_le_map_range
      intro i
      apply truncQ_mono
      have hn : (2 : ℤ) ≤ n := by
        rcases not_or.mp hdeg with ⟨-, h2⟩
        rcases not_or.mp h2 with ⟨-, h3⟩
        omega
      have hden : (0 : ℚ) < (n : ℚ) - 1 := by
        have h2q : (2 : ℚ) ≤ (n : ℚ) := by exact_mod_cast hn
        linarith
      have hnum : (0 : ℚ) < ((p - c : ℤ) : ℚ) := by exact_mod_cast sub_pos.mpr hlt
      have hann : (0 : ℚ) ≤ ((p - c : ℤ) : ℚ) / ((n : ℚ) - 1) :=
        le_of_lt (div_pos hnum hden)
      have hstep : ((i : ℕ) : ℚ) ≤ ((i + 1 : ℕ) : ℚ) := by push_cast; linarith
      exact add_le_add_left (mul_le_mul_of_nonneg_left hstep hann) _

/-- Witness for C4: the amended formula at current 100, projected 200 and
11 years gives the arithmetic progression from 100 to 200 in steps of
10. -/
theorem C4_employment_trend_witness :
    generate_employment_trend (some 100) (some 200) 11
      = (List.range (11 : ℤ).toNat).map
          (fun i : ℕ => truncQ (((100 : ℤ) : ℚ)
            + (i : ℚ) * (((200 : ℤ) : ℚ) - ((100 : ℤ) : ℚ)) / (((11 : ℤ) : ℚ) - 1))) :=
  C4_employment_trend.1 100 200 11 (by decide) (by decide) (by decide)

/-- Lower-casing a code point twice is the same as once. -/
theorem pyLowerChar_idem (c : Nat) : pyLowerChar (pyLowerChar c) = pyLowerChar c := by
  unfold pyLowerChar
  split_ifs <;> omega

/-- Lower-casing a string twice is the same as once. -/
theorem pyLower_idem (s : PyStr) : pyLower (pyLower s) = pyLower s := by
  unfold pyLower
  rw [List.map_map]
  exact List.map_congr_left fun a _ => pyLowerChar_idem a

/-- `dropWhile` preserves being a lower-case fixed point. -/
theorem pyLower_fixed_dropWhile (q : Nat → Bool) :
    ∀ s : PyStr, pyLower s = s → pyLower (s.dropWhile q) = s.dropWhile q := by
  intro s
  induction s with
  | nil => intro _; rfl
  | cons a as ih =>
      intro h
      rw [pyLower, List.map_cons, List.cons.injEq] at h
      rw [List.dropWhile_cons]
      split_ifs
      · exact ih h.2
      · rw [pyLower, List.map_cons, h.1, h.2]

/-- `reverse` preserves being a lower-case fixed point. -/
theorem pyLower_fixed_reverse (s : PyStr) (h : pyLower s = s) :
    pyLower s.reverse = s.reverse := by
  rw [pyLower, List.map_reverse]
  exact congrArg List.reverse h

/-- `take` preserves being a lower-case fixed point. -/
theorem pyLower_fixed_take (n : Nat) (s : PyStr) (h : pyLower s = s) :
    pyLower (s.take n) = s.take n := by
  rw [pyLower, List.map_take]
  exact congrArg (List.take n) h

/-- `pyStrip` preserves being a lower-case fixed point. -/
theorem pyLower_fixed_pyStrip (s : PyStr) (h : pyLower s = s) :
    pyLower (pyStrip s) = pyStrip s := by
  unfold pyStrip
  exact pyLower_fixed_reverse _
    (pyLower_fixed_dropWhile _ _
      (pyLower_fixed_reverse _ (pyLower_fixed_dropWhile _ _ h)))

/-- The suffix loop preserves being a lower-case fixed point. -/
theorem pyLower_fixed_stripOneSuffix :
    ∀ (L : List PyStr) (s : PyStr), pyLower s = s →
      pyLower (stripOneSuffix L s) = stripOneSuffix L s := by
  intro L
  induction L with
  | nil => intro s h; exact h
  | cons suf rest ih =>
      intro s h
      rw [stripOneSuffix]
      split_ifs
      · exact pyLower_fixed_take _ _ h
      · exact ih s h

/-- The output of the normalizer is already lower-case. -/
theorem standardize_lower_fixed (t : PyStr) :
    pyLower (standardize_job_title t) = standardize_job_title t :=
  pyLower_fixed_stripOneSuffix SUFFIXES _ (pyLower_fixed_pyStrip _ (pyLower_idem t))

/-- C5, counterexample: the normalizer is not idempotent — one pass over
`"Engineering Senior Lead"` strips only `" lead"`, leaving
`"engineering senior"`, and a second pass strips `" senior"` as well. -/
theorem C5_normalize_not_idempotent :
    standardize_job_title (standardize_job_title (pyStr "Engineering Senior Lead"))
      ≠ standardize_job_title (pyStr "Engineering Senior Lead") := by
  decide

/-- C5, amended: the normalizer is idempotent on every title whose
normalized form ends with none of the strippable suffix tokens and carries
no leading or trailing whitespace (a second pass then lower-cases, trims
and suffix-strips without effect; lower-casing is always already a no-op
on a normalized title). -/
theorem C5_normalize_idempotent_conditional :
    ∀ t : PyStr,
      pyStrip (standardize_job_title t) = standardize_job_title t →
      (∀ suf ∈ SUFFIXES, List.isSuffixOf suf (standardize_job_title t) = false) →
      standardize_job_title (standardize_job_title t) = standardize_job_title t := by
  intro t h1 h2
  show stripOneSuffix SUFFIXES (pyStrip (pyLower (standardize_job_title t)))
      = standardize_job_title t
  rw [standardize_lower_fixed t, h1]
  exact stripOneSuffix_of_no_match _ SUFFIXES h2

/-- Witness for C5: `"Software Developer"` normalizes to
`"software developer"`, which is a fixed point of a second pass. -/
theorem C5_normalize_idempotent_conditional_witness :
    standardize_job_title (standardize_job_title (pyStr "Software Developer"))
      = standardize_job_title (pyStr "Software Developer") :=
  C5_normalize_idempotent_conditional (pyStr "Software Developer")
    (by decide) (by decide)
